import Mathlib

/-!
Shallow embedding of the two browser widgets of the aria-ai-chatbot
repository and proofs about their behaviour.

The embedded code:
- the voice assistant class, file src/unnamed/part_000 (state fields of
  the constructor, startListening, stopListening, the recognition onend
  handler, processVoiceCommand, addMessage, speak);
- the screenshot analyzer class, file src/static/js/screenshot_analyzer.js
  (captureScreen, the synchronous part of analyzeScreenshot, closeModal,
  retakeScreenshot).

Asynchronous platform effects (the outcome of the fetch call, the outcome
of the display-media permission prompt, the end event of the recognition
session) are passed to the step functions as explicit arguments; DOM
mutations performed by the widgets are fields of the state records; alerts
raised, HTTP requests issued and synthesis invocations are returned as
logs, in order.
-/

namespace AriaAI

/-- One entry of the voice assistant conversation log.  addMessage
(src/unnamed/part_000:403) pushes a record with a role field (the type
argument) and a content field (the text argument). -/
structure ConversationEntry where
  role : String
  content : String
  deriving DecidableEq, Repr

/-- State of the voice assistant: the class fields hasRecognition
(whether the recognition object is non-null), isListening, isSpeaking and
conversation, the running state of the platform recognition session, and
the DOM state the widget mutates (button class, waveform visibility,
status line, button disabled flags). -/
structure VoiceState where
  hasRecognition : Bool
  isListening : Bool
  isSpeaking : Bool
  recognitionRunning : Bool
  conversation : List ConversationEntry
  buttonListeningClass : Bool
  waveformShown : Bool
  statusClass : String
  statusText : String
  startBtnDisabled : Bool
  stopBtnDisabled : Bool
  deriving DecidableEq, Repr

/-- One POST request issued by the voice assistant to the chat endpoint:
the body is the object with the single message field
(src/unnamed/part_000:369-373). -/
structure VoiceChatRequest where
  url : String
  message : String
  deriving DecidableEq, Repr

/-- Outcome of parsing the response body as JSON: the json builder carries
the optional response field of the parsed body. -/
inductive BodyParse where
  | parseError
  | json (responseField : Option String)
  deriving DecidableEq, Repr

/-- Outcome of the fetch call.  A fetch promise rejects only on a network
failure; any HTTP response, whatever its status, resolves and carries a
status code and a body. -/
inductive FetchOutcome where
  | networkError
  | httpResponse (status : Nat) (body : BodyParse)
  deriving DecidableEq, Repr

/-- Result of running one voice-widget operation: the new state, the
requests issued, the texts handed to speech synthesis and the alerts
raised, each in order. -/
structure VoiceStep where
  state : VoiceState
  requests : List VoiceChatRequest
  speaks : List String
  alerts : List String
  deriving DecidableEq, Repr

/-- Fallback reply used when the parsed body has no truthy response field
(src/unnamed/part_000:376). -/
def fallbackReply : String := "I understand. How can I help you further?"

/-- Fixed generic error reply of the catch branch
(src/unnamed/part_000:383). -/
def voiceErrorReply : String := "Sorry, I encountered an error. Please try again."

/-- Alert raised by startListening when no recognition object exists
(src/unnamed/part_000:325). -/
def unsupportedVoiceAlert : String :=
  "Voice recognition is not supported in your browser. Please use Chrome or Edge."

/-- Whitespace characters removed by the JavaScript string trim (the
ASCII ones; transcripts come from speech recognition). -/
def isJsWhitespace (c : Char) : Bool :=
  c = ' ' || c = '\t' || c = '\n' || c = '\r' || c = '\x0b' || c = '\x0c'

/-- Model of the JavaScript trim method: remove leading and trailing
whitespace. -/
def jsTrim (s : String) : String :=
  String.mk (((s.data.dropWhile isJsWhitespace).reverse.dropWhile isJsWhitespace).reverse)

/-- JavaScript or-else on an optional string field: an absent field and
the empty string are falsy, so they select the fallback. -/
def jsOrString : Option String → String → String
  | none, b => b
  | some a, b => if a = "" then b else a

/-- addMessage (src/unnamed/part_000:389-404): append one entry with the
given role and content to the conversation log. -/
def addMessage (st : VoiceState) (type : String) (text : String) : VoiceState :=
  { st with conversation := st.conversation ++ [⟨type, text⟩] }

/-- processVoiceCommand (src/unnamed/part_000:359-387): trim the
transcript and return unchanged when empty; otherwise append the user
entry, show the thinking status, issue one POST to the chat endpoint, and
handle the outcome.  The catch branch fires exactly when the fetch
rejects (network failure) or the body fails to parse as JSON; the HTTP
status of a response is never inspected.  On the success path the
assistant text is the response field of the body, with a fallback when
the field is absent or falsy; on the catch path it is the fixed error
reply.  Either way one assistant entry is appended and its text spoken. -/
def processVoiceCommand (st : VoiceState) (transcript : String)
    (outcome : FetchOutcome) : VoiceStep :=
  let trimmed := jsTrim transcript
  if trimmed = "" then
    ⟨st, [], [], []⟩
  else
    let st1 := addMessage st "user" trimmed
    let st2 := { st1 with statusClass := "voice-status speaking",
                          statusText := "💭 AI is thinking..." }
    let req : VoiceChatRequest := ⟨"/api/voice-chat", trimmed⟩
    match outcome with
    | .networkError =>
        let st3 := addMessage st2 "ai" voiceErrorReply
        ⟨st3, [req], [voiceErrorReply], []⟩
    | .httpResponse _ .parseError =>
        let st3 := addMessage st2 "ai" voiceErrorReply
        ⟨st3, [req], [voiceErrorReply], []⟩
    | .httpResponse _ (.json rf) =>
        let aiResponse := jsOrString rf fallbackReply
        let st3 := addMessage st2 "ai" aiResponse
        ⟨st3, [req], [aiResponse], []⟩

/-- startListening (src/unnamed/part_000:323-338): when no recognition
object exists, raise the unsupported alert and return with nothing else
done; otherwise set the listening flag, start recognition and update the
UI. -/
def startListening (st : VoiceState) : VoiceStep :=
  if st.hasRecognition = false then
    ⟨st, [], [], [unsupportedVoiceAlert]⟩
  else
    ⟨{ st with isListening := true, recognitionRunning := true,
               buttonListeningClass := true, waveformShown := true,
               statusClass := "voice-status listening",
               statusText := "🎤 Listening... Speak now",
               startBtnDisabled := true, stopBtnDisabled := false },
     [], [], []⟩

/-- stopListening (src/unnamed/part_000:340-352): clear the listening
flag, stop recognition when a recognition object exists, and update the
UI. -/
def stopListening (st : VoiceState) : VoiceState :=
  let st1 := { st with isListening := false }
  let st2 := if st1.hasRecognition then { st1 with recognitionRunning := false } else st1
  { st2 with buttonListeningClass := false, waveformShown := false,
             statusClass := "voice-status",
             statusText := "Voice assistant stopped",
             startBtnDisabled := false, stopBtnDisabled := true }

/-- The platform ends the recognition session, then the registered onend
handler (src/unnamed/part_000:50-54) runs: restart recognition exactly
when the widget is still listening. -/
def recognitionEnded (st : VoiceState) : VoiceState :=
  let st1 := { st with recognitionRunning := false }
  if st1.isListening then { st1 with recognitionRunning := true } else st1

/-- The widget state right after construction with speech recognition
available: flags cleared, empty conversation, the initial status line of
the created panel (src/unnamed/part_000:5-10, 283-300). -/
def initVoiceState : VoiceState :=
  { hasRecognition := true, isListening := false, isSpeaking := false,
    recognitionRunning := false, conversation := [],
    buttonListeningClass := false, waveformShown := false,
    statusClass := "voice-status",
    statusText := "Click \"Start\" to begin conversation",
    startBtnDisabled := false, stopBtnDisabled := true }

/-- The platform speech-synthesis engine: the queue of utterances handed
to it and not yet finished. -/
structure Synthesis where
  utterances : List String
  deriving DecidableEq, Repr

/-- The engine is speaking when its queue is nonempty. -/
def Synthesis.speaking (s : Synthesis) : Bool := !s.utterances.isEmpty

/-- Cancelling drops every queued utterance. -/
def Synthesis.cancel (_s : Synthesis) : Synthesis := ⟨[]⟩

/-- Speaking an utterance appends it to the engine queue. -/
def Synthesis.enqueue (s : Synthesis) (text : String) : Synthesis :=
  ⟨s.utterances ++ [text]⟩

/-- Commands the widget issues to the synthesis engine. -/
inductive SynthCommand where
  | cancel
  | speakUtterance (text : String)
  deriving DecidableEq, Repr

/-- speak (src/unnamed/part_000:406-431): when the engine is speaking,
cancel first; then hand one new utterance to the engine.  Returns the
engine state and the commands issued, in order. -/
def speak (s : Synthesis) (text : String) : Synthesis × List SynthCommand :=
  if s.speaking then
    ((s.cancel).enqueue text, [.cancel, .speakUtterance text])
  else
    (s.enqueue text, [.speakUtterance text])

/-- Alert of captureScreen when the display-media capability is missing
(src/static/js/screenshot_analyzer.js:198). -/
def unsupportedCaptureAlert : String :=
  "Screen capture is not supported in your browser. Please use Chrome, Edge, or Firefox."

/-- Alert of the catch branch for a NotAllowedError
(src/static/js/screenshot_analyzer.js:228). -/
def permissionDeniedAlert : String :=
  "Screen capture permission denied. Please allow screen sharing to use this feature."

/-- Prefix of the alert for any other capture error
(src/static/js/screenshot_analyzer.js:230). -/
def captureFailedAlertPre : String := "Failed to capture screenshot: "

/-- Busy text shown in the result area while the analysis request is in
flight (src/static/js/screenshot_analyzer.js:247). -/
def analyzeLoadingText : String := "Analyzing screenshot with AI..."

/-- Fixed instruction string sent with every analysis request
(src/static/js/screenshot_analyzer.js:260). -/
def analyzePrompt : String :=
  "Analyze this screenshot and provide detailed information about what you see. If it\x27s aviation-related, provide technical insights. If it\x27s code, explain it. If it\x27s a diagram, describe the components and their relationships."

/-- One POST request issued to the analysis endpoint: the body carries
the image data URL and the fixed prompt
(src/static/js/screenshot_analyzer.js:253-262). -/
structure AnalyzeRequest where
  url : String
  image : String
  prompt : String
  deriving DecidableEq, Repr

/-- Outcome of the display-media permission prompt: denied is the
NotAllowedError rejection, failed any other rejection, granted a captured
frame encoded as a data URL. -/
inductive DisplayMediaOutcome where
  | denied
  | failed (message : String)
  | granted (image : String)
  deriving DecidableEq, Repr

/-- Which terminal branch of the capture control flow was taken, named
after the states of the widget lifecycle: the early unsupported return,
the catch branch (the error state), or the start of the analysis cycle. -/
inductive CapturePhase where
  | idlePhase
  | unsupportedPhase
  | errorPhase
  | analyzingPhase
  deriving DecidableEq, Repr

/-- State of the screenshot analyzer DOM: whether the modal is shown,
the analyzing class on the floating button, the contents of the preview
and result areas, and a pending delayed capture scheduled by
retakeScreenshot. -/
structure ScreenState where
  modalActive : Bool
  buttonAnalyzing : Bool
  preview : Option String
  resultShown : Option String
  pendingCaptureDelay : Option Nat
  deriving DecidableEq, Repr

/-- Result of running one capture-widget operation: the new state, the
requests issued, the alerts raised, and the branch taken. -/
structure ScreenStep where
  state : ScreenState
  requests : List AnalyzeRequest
  alerts : List String
  phase : CapturePhase
  deriving DecidableEq, Repr

/-- Synchronous part of analyzeScreenshot
(src/static/js/screenshot_analyzer.js:235-262): open the modal, mark the
button analyzing, replace the preview with the new image and the result
area with the busy text, and issue one POST to the analysis endpoint. -/
def analyzeScreenshotStart (st : ScreenState) (imageDataUrl : String) : ScreenStep :=
  ⟨{ st with modalActive := true, buttonAnalyzing := true,
             preview := some imageDataUrl,
             resultShown := some analyzeLoadingText },
   [⟨"/api/analyze-screenshot", imageDataUrl, analyzePrompt⟩], [], .analyzingPhase⟩

/-- captureScreen (src/static/js/screenshot_analyzer.js:194-233): when
the capability is missing, alert and return; on a permission denial or
any other capture error, the catch branch alerts and nothing else
happens; on a granted capture, hand the encoded frame to
analyzeScreenshot. -/
def captureScreen (hasCapability : Bool) (outcome : DisplayMediaOutcome)
    (st : ScreenState) : ScreenStep :=
  if hasCapability = false then
    ⟨st, [], [unsupportedCaptureAlert], .unsupportedPhase⟩
  else
    match outcome with
    | .denied => ⟨st, [], [permissionDeniedAlert], .errorPhase⟩
    | .failed m => ⟨st, [], [captureFailedAlertPre ++ m], .errorPhase⟩
    | .granted img => analyzeScreenshotStart st img

/-- closeModal (src/static/js/screenshot_analyzer.js:290-292): hide the
modal; the preview and result areas are left as they are. -/
def closeModal (st : ScreenState) : ScreenState :=
  { st with modalActive := false }

/-- retakeScreenshot (src/static/js/screenshot_analyzer.js:294-297):
close the modal and schedule a capture after a 300 millisecond delay. -/
def retakeScreenshot (st : ScreenState) : ScreenState :=
  let st1 := closeModal st
  { st1 with pendingCaptureDelay := some 300 }

/-- Scheduling a capture after the given delay, the model of setTimeout
around captureScreen. -/
def scheduleCaptureAfter (delay : Nat) (st : ScreenState) : ScreenState :=
  { st with pendingCaptureDelay := some delay }

/-- Written after the words of the spec for the refinement claim about
retake: close, then after a fixed short delay trigger capture again. -/
def closeThenScheduledRecapture (st : ScreenState) : ScreenState :=
  scheduleCaptureAfter 300 (closeModal st)

/-- Claim C1 as stated is false at a concrete input: a POST to the chat
endpoint answered with HTTP status 500 and a JSON body whose response
field is the string boom does not produce the fixed generic error reply;
the widget appends and speaks boom, because the status is never checked
and only a fetch rejection or a JSON parse failure reaches the catch
branch. -/
theorem claim_C1_counterexample :
    (processVoiceCommand initVoiceState "hello"
        (FetchOutcome.httpResponse 500 (BodyParse.json (some "boom")))).state.conversation
      = [⟨"user", "hello"⟩, ⟨"ai", "boom"⟩]
    ∧ (processVoiceCommand initVoiceState "hello"
        (FetchOutcome.httpResponse 500 (BodyParse.json (some "boom")))).speaks = ["boom"]
    ∧ ("boom" : String) ≠ voiceErrorReply := by
  refine ⟨?_, ?_, ?_⟩ <;> decide

/-- Claim C1 amended: the uniform failure handling — exactly one
assistant entry holding the fixed generic error reply, which is also
spoken — applies to every chat request that fails at the network level or
whose response body fails to parse as JSON; the HTTP status itself is
never inspected. -/
theorem claim_C1_amended (st : VoiceState) (transcript : String) (outcome : FetchOutcome)
    (h : jsTrim transcript ≠ "")
    (hfail : outcome = FetchOutcome.networkError
       ∨ ∃ s, outcome = FetchOutcome.httpResponse s BodyParse.parseError) :
    (processVoiceCommand st transcript outcome).state.conversation
      = st.conversation ++ [⟨"user", jsTrim transcript⟩, ⟨"ai", voiceErrorReply⟩]
    ∧ (processVoiceCommand st transcript outcome).speaks = [voiceErrorReply] := by
  rcases hfail with rfl | ⟨s, rfl⟩ <;>
    simp [processVoiceCommand, h, addMessage]

/-- Witness for the amended claim C1 at a concrete network failure. -/
theorem claim_C1_witness :
    jsTrim "hello" ≠ ""
    ∧ ((processVoiceCommand initVoiceState "hello" FetchOutcome.networkError).state.conversation
         = initVoiceState.conversation ++ [⟨"user", jsTrim "hello"⟩, ⟨"ai", voiceErrorReply⟩]
       ∧ (processVoiceCommand initVoiceState "hello" FetchOutcome.networkError).speaks
         = [voiceErrorReply]) :=
  ⟨by decide,
   claim_C1_amended initVoiceState "hello" FetchOutcome.networkError (by decide) (Or.inl rfl)⟩

/-- Claim C2 as stated is false at a concrete input: the entry appended
for a successful chat response has role ai, which is neither user nor
assistant, and the source stores the text under a content field. -/
theorem claim_C2_counterexample :
    (processVoiceCommand initVoiceState "hello"
        (FetchOutcome.httpResponse 200 (BodyParse.json (some "Hi there!")))).state.conversation.getLast?
      = some ⟨"ai", "Hi there!"⟩
    ∧ ("ai" : String) ≠ "user" ∧ ("ai" : String) ≠ "assistant" := by
  refine ⟨?_, ?_, ?_⟩ <;> decide

/-- Claim C2 amended: every conversation entry appended by the widget is
a record with a role field and a content field, the role being user or
ai; the entry appended for a successful chat response with a truthy
response field has role ai and content equal to the response text. -/
theorem claim_C2_amended (st : VoiceState) (transcript : String) (status : Nat) (r : String)
    (h : jsTrim transcript ≠ "") (hr : r ≠ "") :
    (processVoiceCommand st transcript
        (FetchOutcome.httpResponse status (BodyParse.json (some r)))).state.conversation
      = st.conversation ++ [⟨"user", jsTrim transcript⟩, ⟨"ai", r⟩]
    ∧ ∀ e ∈ [(⟨"user", jsTrim transcript⟩ : ConversationEntry), ⟨"ai", r⟩],
        e.role = "user" ∨ e.role = "ai" := by
  constructor
  · simp [processVoiceCommand, h, addMessage, jsOrString, hr]
  · intro e he
    simp only [List.mem_cons, List.not_mem_nil, or_false] at he
    rcases he with rfl | rfl
    · exact Or.inl rfl
    · exact Or.inr rfl

/-- Witness for the amended claim C2 at a concrete successful response. -/
theorem claim_C2_witness :
    jsTrim "hello" ≠ "" ∧ ("Hi there!" : String) ≠ ""
    ∧ ((processVoiceCommand initVoiceState "hello"
          (FetchOutcome.httpResponse 200 (BodyParse.json (some "Hi there!")))).state.conversation
        = initVoiceState.conversation ++ [⟨"user", jsTrim "hello"⟩, ⟨"ai", "Hi there!"⟩]
       ∧ ∀ e ∈ [(⟨"user", jsTrim "hello"⟩ : ConversationEntry), ⟨"ai", "Hi there!"⟩],
           e.role = "user" ∨ e.role = "ai") :=
  ⟨by decide, by decide,
   claim_C2_amended initVoiceState "hello" 200 "Hi there!" (by decide) (by decide)⟩

/-- Claim C3: a final recognition result whose text trims to the empty
string changes no state, appends no conversation entry, issues no
request, speaks nothing and alerts nothing, whatever the fetch outcome
would have been. -/
theorem claim_C3_empty_final_result_ignored (st : VoiceState) (transcript : String)
    (outcome : FetchOutcome) (h : jsTrim transcript = "") :
    processVoiceCommand st transcript outcome = ⟨st, [], [], []⟩ := by
  simp [processVoiceCommand, h]

/-- Witness for claim C3 at a whitespace-only transcript. -/
theorem claim_C3_witness :
    jsTrim " \t " = ""
    ∧ processVoiceCommand initVoiceState " \t " FetchOutcome.networkError
        = ⟨initVoiceState, [], [], []⟩ :=
  ⟨by decide,
   claim_C3_empty_final_result_ignored initVoiceState " \t " FetchOutcome.networkError
     (by decide)⟩

/-- Claim C4: when the synthesis engine is currently speaking, speak
issues a cancel before it starts the new utterance, and afterwards the
new utterance is the only one held by the engine, so at most one
utterance is ever active. -/
theorem claim_C4_speak_cancels_active (s : Synthesis) (text : String)
    (h : s.speaking = true) :
    (speak s text).2 = [SynthCommand.cancel, SynthCommand.speakUtterance text]
    ∧ (speak s text).1.utterances = [text] := by
  simp [speak, h, Synthesis.cancel, Synthesis.enqueue]

/-- Witness for claim C4 at an engine with one active utterance. -/
theorem claim_C4_witness :
    (Synthesis.mk ["a"]).speaking = true
    ∧ ((speak ⟨["a"]⟩ "b").2 = [SynthCommand.cancel, SynthCommand.speakUtterance "b"]
       ∧ (speak ⟨["a"]⟩ "b").1.utterances = ["b"]) :=
  ⟨by decide, claim_C4_speak_cancels_active ⟨["a"]⟩ "b" (by decide)⟩

/-- Claim C5: after stopListening the listening flag is down, so a
recognition ended event arriving next leaves recognition stopped and the
widget stopped, and stopListening is idempotent. -/
theorem claim_C5_stop_idempotent_no_restart (st : VoiceState) :
    (recognitionEnded (stopListening st)).recognitionRunning = false
    ∧ (recognitionEnded (stopListening st)).isListening = false
    ∧ stopListening (stopListening st) = stopListening st := by
  cases h : st.hasRecognition <;>
    simp [recognitionEnded, stopListening, h]

/-- Claim C6: a recognition ended event arriving while the widget is
still listening restarts recognition and changes nothing else — the
self-healing restart. -/
theorem claim_C6_auto_restart_while_listening (st : VoiceState)
    (h : st.isListening = true) :
    (recognitionEnded st).recognitionRunning = true
    ∧ recognitionEnded st = { st with recognitionRunning := true } := by
  constructor <;> simp [recognitionEnded, h]

/-- Witness for claim C6 at a concrete listening state. -/
theorem claim_C6_witness :
    ({ initVoiceState with isListening := true } : VoiceState).isListening = true
    ∧ ((recognitionEnded { initVoiceState with isListening := true }).recognitionRunning = true
       ∧ recognitionEnded { initVoiceState with isListening := true }
         = { { initVoiceState with isListening := true } with recognitionRunning := true }) :=
  ⟨by decide,
   claim_C6_auto_restart_while_listening { initVoiceState with isListening := true } (by decide)⟩

/-- Claim C7: when the platform denies the screen-capture permission the
capture attempt takes the error branch, raises exactly the user-facing
permission-denied alert, issues no request to the analysis endpoint and
leaves the widget state unchanged. -/
theorem claim_C7_permission_denied_no_request (st : ScreenState) :
    (captureScreen true DisplayMediaOutcome.denied st).phase = CapturePhase.errorPhase
    ∧ (captureScreen true DisplayMediaOutcome.denied st).alerts = [permissionDeniedAlert]
    ∧ (captureScreen true DisplayMediaOutcome.denied st).requests = []
    ∧ (captureScreen true DisplayMediaOutcome.denied st).state = st := by
  refine ⟨rfl, rfl, rfl, rfl⟩

/-- Claim C8: retakeScreenshot equals closeModal followed by scheduling
a capture after the fixed 300 millisecond delay; the modal is hidden, and
when the scheduled capture fires and is granted, the new cycle overwrites
the previous preview image and result text. -/
theorem claim_C8_retake_equals_close_then_capture (st : ScreenState) (img : String) :
    retakeScreenshot st = closeThenScheduledRecapture st
    ∧ (retakeScreenshot st).modalActive = false
    ∧ (captureScreen true (DisplayMediaOutcome.granted img)
        (retakeScreenshot st)).state.preview = some img
    ∧ (captureScreen true (DisplayMediaOutcome.granted img)
        (retakeScreenshot st)).state.resultShown = some analyzeLoadingText := by
  refine ⟨rfl, rfl, ?_, ?_⟩ <;>
    simp [captureScreen, analyzeScreenshotStart, retakeScreenshot, closeModal]

/-- Claim C9: for a transcript with nonempty trimmed content, the
appended user entry holds exactly the trimmed transcript, and the single
POST to the chat endpoint carries exactly the trimmed transcript as its
message, whatever the fetch outcome. -/
theorem claim_C9_trimmed_text_used (st : VoiceState) (transcript : String)
    (outcome : FetchOutcome) (h : jsTrim transcript ≠ "") :
    ∃ aiText,
      (processVoiceCommand st transcript outcome).state.conversation
        = st.conversation ++ [⟨"user", jsTrim transcript⟩, ⟨"ai", aiText⟩]
      ∧ (processVoiceCommand st transcript outcome).requests
        = [⟨"/api/voice-chat", jsTrim transcript⟩] := by
  cases outcome with
  | networkError =>
      exact ⟨voiceErrorReply, by simp [processVoiceCommand, h, addMessage]⟩
  | httpResponse status body =>
      cases body with
      | parseError =>
          exact ⟨voiceErrorReply, by simp [processVoiceCommand, h, addMessage]⟩
      | json rf =>
          exact ⟨jsOrString rf fallbackReply, by simp [processVoiceCommand, h, addMessage]⟩

/-- Witness for claim C9 at a transcript with surrounding whitespace. -/
theorem claim_C9_witness :
    jsTrim "  hello  " ≠ ""
    ∧ ∃ aiText,
        (processVoiceCommand initVoiceState "  hello  "
            (FetchOutcome.httpResponse 200 (BodyParse.json (some "Hi there!")))).state.conversation
          = initVoiceState.conversation ++ [⟨"user", jsTrim "  hello  "⟩, ⟨"ai", aiText⟩]
        ∧ (processVoiceCommand initVoiceState "  hello  "
            (FetchOutcome.httpResponse 200 (BodyParse.json (some "Hi there!")))).requests
          = [⟨"/api/voice-chat", jsTrim "  hello  "⟩] :=
  ⟨by decide,
   claim_C9_trimmed_text_used initVoiceState "  hello  "
     (FetchOutcome.httpResponse 200 (BodyParse.json (some "Hi there!"))) (by decide)⟩

/-- Claim C10: calling startListening when no recognition object exists
leaves the whole widget state unchanged, issues no request, speaks
nothing and only raises the user-facing unsupported alert. -/
theorem claim_C10_start_unsupported_atomic (st : VoiceState)
    (h : st.hasRecognition = false) :
    startListening st = ⟨st, [], [], [unsupportedVoiceAlert]⟩ := by
  simp [startListening, h]

/-- Witness for claim C10 at a concrete state without recognition. -/
theorem claim_C10_witness :
    ({ initVoiceState with hasRecognition := false } : VoiceState).hasRecognition = false
    ∧ startListening { initVoiceState with hasRecognition := false }
      = ⟨{ initVoiceState with hasRecognition := false }, [], [], [unsupportedVoiceAlert]⟩ :=
  ⟨by decide,
   claim_C10_start_unsupported_atomic { initVoiceState with hasRecognition := false } (by decide)⟩

end AriaAI
